import Mathlib

/-
Verification development for the KnobGalleryPlusPlus concurrent batch
downloader (src/backend/services/enhanced_download.py, with the data model
from src/backend/core/models.py).

Shallow embedding conventions:
- Python strings are String, Python int is Int (counts that are Python
  list/set lengths are Nat), Optional[str] is Option String.
- The on-disk filesystem is an association list from path to file content;
  open(path, 'wb') followed by write(content) is modeled as consing a new
  binding, which shadows any older binding (truncate-then-write).
- The network is an oracle: for a URL and a 1-based attempt number inside
  one fetch, it yields some body (a 2xx response with that body) or none
  (any transport error, timeout, or non-2xx status, which raise_for_status
  turns into an exception).
- pydantic semantics: ScrapeStatus in models.py declares exactly the fields
  in_progress, total_items, completed_items, success, error_message.
  A pydantic BaseModel (v1 and v2, default config) accepts unknown keyword
  arguments to the constructor (extra defaults to ignore) but raises
  ValueError on attribute assignment to an undeclared field. Attribute
  assignment is therefore modeled by pydanticAssign, which checks the field
  name against the declared field list and fails with PyError.noField
  otherwise. This is the semantics that decides the batch-runner claims:
  enhanced_download.py assigns self.status.message, and message is not a
  declared field of ScrapeStatus.
- Exceptions are modeled with Except PyError; code that cannot raise in the
  model returns plain values.
-/

/-- LicenseType enum from models.py. -/
inductive LicenseType where
  | CC0 | PD | CC_BY | CC_BY_SA | CC_BY_ND | CC_BY_NC | CC_BY_NC_SA | CC_BY_NC_ND
  | CC_BY_4_0 | CC_BY_SA_4_0 | CC_BY_ND_4_0 | CC_BY_NC_4_0 | CC_BY_NC_SA_4_0 | CC_BY_NC_ND_4_0
deriving DecidableEq

/-- KnobAsset model from models.py: one catalog entry. -/
structure KnobAsset where
  id : Int
  file : String
  author : Option String := none
  license : LicenseType := LicenseType.CC0
  date : String := ""
  comment : Option String := some ""
  tags : String := ""
  size : Option String := none
  thumbnail_url : Option String := none
  download_url : Option String := none
  local_path : Option String := none
  local_thumbnail_path : Option String := none
  downloaded : Bool := false
deriving DecidableEq

/-- ScrapeStatus model from models.py. Note that there is no message field;
only these five fields are declared. -/
structure ScrapeStatus where
  in_progress : Bool := false
  total_items : Nat := 0
  completed_items : Nat := 0
  success : Bool := false
  error_message : Option String := none
deriving DecidableEq

/-- The declared field names of ScrapeStatus, in the order of models.py. -/
def scrapeStatusFields : List String :=
  ["in_progress", "total_items", "completed_items", "success", "error_message"]

/-- Exceptions that the modeled code can raise.
noField cls fld: pydantic ValueError on assigning an undeclared field.
rangeZeroStep: ValueError from range(0, total, 0).
badMaxWorkers: ValueError from ThreadPoolExecutor(max_workers) with
max_workers non-positive.
configError: the configuration-rejection error the specification (section
4.3) demands for invalid batch_size or max_workers. No code path in
enhanced_download.py constructs it; it exists so that the validation claim
can be stated and compared against what the code actually raises. -/
inductive PyError where
  | noField (cls fld : String)
  | rangeZeroStep
  | badMaxWorkers
  | configError
deriving DecidableEq

/-- pydantic attribute assignment on a ScrapeStatus: apply the update when
the field is declared, raise ValueError otherwise. Each call site names the
field being assigned and updates exactly that field. -/
def pydanticAssign (fld : String) (upd : ScrapeStatus → ScrapeStatus)
    (st : ScrapeStatus) : Except PyError ScrapeStatus :=
  if fld ∈ scrapeStatusFields then Except.ok (upd st)
  else Except.error (PyError.noField "ScrapeStatus" fld)

/-- The filesystem: newest binding first; a path exists when some binding
for it is present. -/
abbrev FileSys := List (String × String)

/-- os.path.exists. -/
def fsExists (fs : FileSys) (p : String) : Bool :=
  (List.any fs (fun e => e.1 == p))

/-- Content of the file at a path, if it exists (newest binding wins). -/
def fsLookup (fs : FileSys) (p : String) : Option String :=
  (List.find? (fun e => e.1 == p) fs).map (fun e => e.2)

/-- open(path, 'wb') then write(content): truncate-create and write. -/
def fsWrite (fs : FileSys) (p c : String) : FileSys :=
  (p, c) :: fs

/-- Network oracle: URL and 1-based attempt number to an optional response
body. none models any exception out of httpx.get or raise_for_status. -/
abbrev NetOracle := String → Nat → Option String

/-- Python truthiness of an Optional[str]: None and the empty string are
falsy. -/
def pyFalsy (o : Option String) : Bool :=
  match o with
  | none => true
  | some s => s == ""

/-- Python bool(s) for a string s. -/
def pyTruthyStr (s : String) : Bool := !(s == "")

/-- Value of an Optional[str] once known truthy. -/
def pyStr (o : Option String) : String := o.getD ""

/-- The pathlib / operator as used here: dir / name. -/
def pathJoin (a b : String) : String := a ++ "/" ++ b

/-- EnhancedDownloader construction state: the two destination directories
and the retry budget. -/
structure Downloader where
  knobs_dir : String
  thumbnails_dir : String
  retry_attempts : Nat := 3
deriving DecidableEq

/-- thumbnails_dir / f"{knob.id}.png" (line 44). -/
def thumbnailPath (d : Downloader) (knob : KnobAsset) : String :=
  pathJoin d.thumbnails_dir (toString knob.id ++ ".png")

/-- knobs_dir / f"{knob.id}_{knob.file}" (lines 79-80). -/
def knobFilePath (d : Downloader) (knob : KnobAsset) : String :=
  pathJoin d.knobs_dir (toString knob.id ++ "_" ++ knob.file)

/-- Result of one fetch call: the returned string (path on success, empty
string on failure), the mutated asset, the filesystem after the call, and
the number of network attempts made. -/
structure FetchResult where
  ret : String
  knob : KnobAsset
  fs : FileSys
  attempts : Nat
deriving DecidableEq

/-- The retry loop shared by both fetchers (lines 56-75 and 93-113):
for attempt in range(1, retry_attempts + 1): on a successful response write
the body to path, apply the success mutation to the asset (setting
downloaded for the payload fetcher, nothing for the thumbnail fetcher) and
return the path; on an exception continue to the next attempt, returning
the empty string when attempts are exhausted. The list argument is the
remaining attempt numbers. -/
def fetchAttempts (net : Nat → Option String) (path : String)
    (onSuccess : KnobAsset → KnobAsset) (fs : FileSys) (knob : KnobAsset) :
    List Nat → FetchResult
  | [] => ⟨"", knob, fs, 0⟩
  | a :: rest =>
    match net a with
    | some body => ⟨path, onSuccess knob, fsWrite fs path body, 1⟩
    | none =>
      let r := fetchAttempts net path onSuccess fs knob rest
      ⟨r.ret, r.knob, r.fs, r.attempts + 1⟩

/-- download_thumbnail_with_retry (lines 42-75). -/
def download_thumbnail_with_retry (d : Downloader) (net : NetOracle)
    (fs : FileSys) (knob : KnobAsset) : FetchResult :=
  let thumbnail_path := thumbnailPath d knob
  let knob := { knob with local_thumbnail_path := some thumbnail_path }
  if fsExists fs thumbnail_path then
    ⟨thumbnail_path, knob, fs, 0⟩
  else if pyFalsy knob.thumbnail_url then
    ⟨"", knob, fs, 0⟩
  else
    fetchAttempts (net (pyStr knob.thumbnail_url)) thumbnail_path
      (fun k => k) fs knob (List.range' 1 d.retry_attempts)

/-- download_knob_with_retry (lines 77-113). On the existence skip and on a
successful download the asset is marked downloaded. -/
def download_knob_with_retry (d : Downloader) (net : NetOracle)
    (fs : FileSys) (knob : KnobAsset) : FetchResult :=
  let knob_path := knobFilePath d knob
  let knob := { knob with local_path := some knob_path }
  if fsExists fs knob_path then
    ⟨knob_path, { knob with downloaded := true }, fs, 0⟩
  else if pyFalsy knob.download_url then
    ⟨"", knob, fs, 0⟩
  else
    fetchAttempts (net (pyStr knob.download_url)) knob_path
      (fun k => { k with downloaded := true }) fs knob
      (List.range' 1 d.retry_attempts)

/-- A Python set of asset ids: membership-based insertion, length is the
set size. -/
def pySetAdd (l : List Int) (x : Int) : List Int :=
  if x ∈ l then l else l ++ [x]

/-- Mutable tracking state of the EnhancedDownloader instance:
_completed_ids, _failed_ids and the status object. -/
structure RunState where
  completed_ids : List Int := []
  failed_ids : List Int := []
  status : ScrapeStatus := {}
deriving DecidableEq

/-- Result of download_knob_complete: the returned success flag, the
mutated asset and filesystem, and the tracking state after the locked
update. -/
structure TaskResult where
  success : Bool
  knob : KnobAsset
  fs : FileSys
  st : RunState
deriving DecidableEq

/-- The thumbnail phase of download_knob_complete (lines 119-122): fetch
the thumbnail when local_thumbnail_path is falsy or names a non-existent
file, otherwise leave asset and filesystem unchanged. -/
def thumbPhase (d : Downloader) (net : NetOracle) (fs : FileSys)
    (knob : KnobAsset) : KnobAsset × FileSys :=
  let need : Bool :=
    match knob.local_thumbnail_path with
    | none => true
    | some p => (p == "") || !(fsExists fs p)
  if need then
    let r := download_thumbnail_with_retry d net fs knob
    (r.knob, r.fs)
  else (knob, fs)

/-- download_knob_complete (lines 115-138): thumbnail phase, then the
payload fetch; overall success is bool(knob_result); under the lock, on
success add the id to _completed_ids and assign
status.completed_items = len(_completed_ids) (a declared field, so the
pydantic assignment succeeds), on failure add the id to _failed_ids. -/
def download_knob_complete (d : Downloader) (net : NetOracle) (fs : FileSys)
    (st : RunState) (knob : KnobAsset) : Except PyError TaskResult :=
  let s1 := thumbPhase d net fs knob
  let kRes := download_knob_with_retry d net s1.2 s1.1
  let success := pyTruthyStr kRes.ret
  if success then
    let ids := pySetAdd st.completed_ids knob.id
    match pydanticAssign "completed_items"
        (fun s => { s with completed_items := ids.length }) st.status with
    | Except.error e => Except.error e
    | Except.ok s2 =>
      Except.ok ⟨true, kRes.knob, kRes.fs, ⟨ids, st.failed_ids, s2⟩⟩
  else
    Except.ok ⟨false, kRes.knob, kRes.fs,
      ⟨st.completed_ids, pySetAdd st.failed_ids knob.id, st.status⟩⟩

/-- Python range(0, stop, step) over a possibly negative or zero step:
step 0 raises ValueError, a negative step with stop at least 0 yields the
empty range, a positive step s yields 0, s, 2s, ... below stop. -/
def pyRange (stop : Nat) (step : Int) : Except PyError (List Nat) :=
  if step = 0 then Except.error PyError.rangeZeroStep
  else if step < 0 then Except.ok []
  else Except.ok (List.range' 0 ((stop + step.toNat - 1) / step.toNat) step.toNat)

/-- The batch partition of line 167:
batches = [knobs[i:i+batch_size] for i in range(0, total, batch_size)]. -/
def makeBatches (knobs : List KnobAsset) (batch_size : Int) :
    Except PyError (List (List KnobAsset)) :=
  match pyRange knobs.length batch_size with
  | Except.error e => Except.error e
  | Except.ok idxs =>
    Except.ok (idxs.map (fun i => (knobs.drop i).take batch_size.toNat))

/-- One batch run through the worker pool (lines 180-198), linearized: the
tasks of the batch are processed one after another in the order given by
the as_completed scheduling (the caller supplies that order); a task that
raises is caught at the task boundary and its id added to _failed_ids.
This code is only ever reached after the status.message assignment of line
177, which always raises, so no theorem below depends on the chosen
linearization. -/
def runBatch (d : Downloader) (net : NetOracle) :
    FileSys → RunState → List KnobAsset → FileSys × RunState
  | fs, st, [] => (fs, st)
  | fs, st, knob :: rest =>
    match download_knob_complete d net fs st knob with
    | Except.ok r => runBatch d net r.fs r.st rest
    | Except.error _ =>
      runBatch d net fs
        { st with failed_ids := pySetAdd st.failed_ids knob.id } rest

/-- The batch loop of lines 172-201. Each iteration first executes
self.status.message = batch_msg (line 177): message is not a declared field
of ScrapeStatus, so this pydantic assignment raises before the worker pool
for the batch is even created. Were it to succeed, ThreadPoolExecutor would
reject a non-positive max_workers, the batch would run to completion, and
line 201 would attempt a second message assignment. -/
def processBatches (d : Downloader) (net : NetOracle)
    (ord : List KnobAsset → List KnobAsset) (max_workers : Int) :
    FileSys → RunState → List (List KnobAsset) →
    Except PyError (FileSys × RunState)
  | fs, st, [] => Except.ok (fs, st)
  | fs, st, batch :: rest =>
    match pydanticAssign "message" (fun s => s) st.status with
    | Except.error e => Except.error e
    | Except.ok s2 =>
      if max_workers ≤ 0 then Except.error PyError.badMaxWorkers
      else
        let p := runBatch d net fs { st with status := s2 } (ord batch)
        match pydanticAssign "message" (fun s => s) p.2.status with
        | Except.error e => Except.error e
        | Except.ok s3 =>
          processBatches d net ord max_workers p.1
            { p.2 with status := s3 } rest

/-- download_assets_in_batches (lines 140-208). The ScrapeStatus
constructor call of lines 155-160 passes message as an extra keyword
argument, which pydantic ignores (extra defaults to ignore), so
initialization succeeds with the five declared fields. After all batches,
lines 204-206 assign in_progress, success (both declared fields) and then
message, which raises. The final return of line 208 is
(len(_completed_ids), len(_failed_ids)). The per-asset record mutations
live in the TaskResult values inside runBatch; they are not re-collected
here because every run faults before reaching line 208. -/
def download_assets_in_batches (d : Downloader) (net : NetOracle)
    (ord : List KnobAsset → List KnobAsset) (fs : FileSys)
    (knobs : List KnobAsset) (batch_size max_workers : Int) :
    Except PyError (Nat × Nat) :=
  let total := knobs.length
  let st0 : RunState :=
    ⟨[], [],
      { in_progress := true, total_items := total, completed_items := 0,
        success := false, error_message := none }⟩
  match makeBatches knobs batch_size with
  | Except.error e => Except.error e
  | Except.ok batches =>
    match processBatches d net ord max_workers fs st0 batches with
    | Except.error e => Except.error e
    | Except.ok (_fs1, st1) =>
      match pydanticAssign "in_progress" (fun s => { s with in_progress := false })
          st1.status with
      | Except.error e => Except.error e
      | Except.ok sA =>
        match pydanticAssign "success"
            (fun s => { s with success := decide (0 < st1.completed_ids.length) }) sA with
        | Except.error e => Except.error e
        | Except.ok sB =>
          match pydanticAssign "message" (fun s => s) sB with
          | Except.error e => Except.error e
          | Except.ok _ =>
            Except.ok (st1.completed_ids.length, st1.failed_ids.length)

/-- One downloader operation on a single asset, with the network behavior
it happened to see: a thumbnail fetch, a payload fetch, or a full
download_knob_complete task. -/
inductive DOp where
  | thumb (net : NetOracle)
  | fetchKnob (net : NetOracle)
  | complete (net : NetOracle)

/-- Apply one downloader operation to an asset and the filesystem. The
tracking state is irrelevant to the asset and filesystem evolution of
download_knob_complete, so a fresh RunState is supplied; its completed
items assignment targets a declared field and cannot fault, so the error
fallback is dead. -/
def applyOp (d : Downloader) (st : KnobAsset × FileSys) : DOp → KnobAsset × FileSys
  | DOp.thumb net =>
    let r := download_thumbnail_with_retry d net st.2 st.1
    (r.knob, r.fs)
  | DOp.fetchKnob net =>
    let r := download_knob_with_retry d net st.2 st.1
    (r.knob, r.fs)
  | DOp.complete net =>
    match download_knob_complete d net st.2 {} st.1 with
    | Except.ok r => (r.knob, r.fs)
    | Except.error _ => st

/-- Apply a sequence of downloader operations. -/
def applyOps (d : Downloader) (st : KnobAsset × FileSys) (ops : List DOp) :
    KnobAsset × FileSys :=
  ops.foldl (applyOp d) st

/-- The payload part of the data-model invariant from the specification:
downloaded implies local_path names an existing file. Non-emptiness of the
file is deliberately not part of this predicate; see the counterexample for
the non-emptiness half of the claim. -/
def PayloadInv (d : Downloader) (k : KnobAsset) (fs : FileSys) : Prop :=
  k.downloaded = true →
    k.local_path = some (knobFilePath d k) ∧ fsExists fs (knobFilePath d k) = true

/- Concrete fixtures used by witnesses and counterexamples. -/

/-- A downloader with directories knobs and thumbs and the default three
retry attempts. -/
def dEx : Downloader := { knobs_dir := "knobs", thumbnails_dir := "thumbs", retry_attempts := 3 }

/-- A fresh asset with a payload URL and no thumbnail URL. -/
def kEx : KnobAsset := { id := 1, file := "a.knb", download_url := some "http://u" }

/-- A fresh asset with both a payload URL and a thumbnail URL. -/
def kExT : KnobAsset :=
  { id := 1, file := "a.knb", download_url := some "http://u", thumbnail_url := some "http://t" }

/-- A fresh asset with no URLs at all. -/
def kNoUrl : KnobAsset := { id := 2, file := "b.knb" }

/-- A network on which every request fails. -/
def netNone : NetOracle := fun _ _ => none

/-- A network on which every request succeeds with body data. -/
def netData : NetOracle := fun _ _ => some "data"

/-- A network on which every request succeeds with an empty body. -/
def netEmptyBody : NetOracle := fun _ _ => some ""

/-- A network on which only the payload URL is reachable; the thumbnail
URL always fails. -/
def netPayloadOnly : NetOracle := fun u _ => if u == "http://u" then some "data" else none

/-- Asset number i of the five-asset batch-partition scenario. -/
def mkA (i : Int) : KnobAsset := { id := i, file := "k.knb", download_url := some "http://u" }

/-- The five assets of the batch-partition scenario. -/
def knobs5 : List KnobAsset := [mkA 1, mkA 2, mkA 3, mkA 4, mkA 5]

/-- A filesystem already holding both destination files of kEx. -/
def fsBoth : FileSys := [("thumbs/1.png", "x"), ("knobs/1_a.knb", "y")]

/-- The payload fetch of kEx against a server that answers with an empty
body: the run that produces an empty file with downloaded set. -/
def c5Run : KnobAsset × FileSys := applyOps dEx (kEx, []) [DOp.fetchKnob netEmptyBody]

/- Shared lemmas about the filesystem and the retry loop. -/

theorem fsExists_write_self (fs : FileSys) (p c : String) :
    fsExists (fsWrite fs p c) p = true := by
  simp [fsExists, fsWrite]

theorem fsExists_write_mono {fs : FileSys} {p : String} (q c : String)
    (h : fsExists fs p = true) : fsExists (fsWrite fs q c) p = true := by
  simp only [fsExists, fsWrite, List.any_cons, Bool.or_eq_true]
  exact Or.inr h

/-- The retry loop either fails every attempt, leaving the asset and the
filesystem untouched and consuming one attempt per list entry, or succeeds
on some attempt, returning the path, applying the success mutation and
writing one file at the path. -/
theorem fetchAttempts_cases (net : Nat → Option String) (path : String)
    (onS : KnobAsset → KnobAsset) (fs : FileSys) (knob : KnobAsset) :
    ∀ l : List Nat,
      fetchAttempts net path onS fs knob l = ⟨"", knob, fs, l.length⟩ ∨
      ∃ b n, fetchAttempts net path onS fs knob l = ⟨path, onS knob, fsWrite fs path b, n⟩ := by
  intro l
  induction l with
  | nil => exact Or.inl rfl
  | cons a rest ih =>
    cases hn : net a with
    | some b => exact Or.inr ⟨b, 1, by simp [fetchAttempts, hn]⟩
    | none =>
      rcases ih with h | ⟨b, n, h⟩
      · exact Or.inl (by simp [fetchAttempts, hn, h])
      · exact Or.inr ⟨b, n + 1, by simp [fetchAttempts, hn, h]⟩

/-- When every attempt in the list fails, the retry loop returns the empty
string, changes nothing, and consumes exactly one attempt per entry. -/
theorem fetchAttempts_all_fail (net : Nat → Option String) (path : String)
    (onS : KnobAsset → KnobAsset) (fs : FileSys) (knob : KnobAsset)
    (l : List Nat) (h : ∀ i ∈ l, net i = none) :
    fetchAttempts net path onS fs knob l = ⟨"", knob, fs, l.length⟩ := by
  induction l with
  | nil => rfl
  | cons a rest ih =>
    have ha : net a = none := h a (by simp)
    have ih2 := ih (fun i hi => h i (by simp [hi]))
    simp [fetchAttempts, ha, ih2]

/-- The thumbnail fetcher always returns the asset with
local_thumbnail_path set to the computed destination; the filesystem is
either unchanged or extended by one write at that destination. -/
theorem thumb_fetch_shape (d : Downloader) (net : NetOracle) (fs : FileSys)
    (knob : KnobAsset) :
    (download_thumbnail_with_retry d net fs knob).knob =
      { knob with local_thumbnail_path := some (thumbnailPath d knob) } ∧
    ((download_thumbnail_with_retry d net fs knob).fs = fs ∨
      ∃ b, (download_thumbnail_with_retry d net fs knob).fs =
        fsWrite fs (thumbnailPath d knob) b) := by
  unfold download_thumbnail_with_retry
  by_cases h1 : fsExists fs (thumbnailPath d knob)
  · simp [h1]
  · by_cases h2 : pyFalsy knob.thumbnail_url
    · simp [h1, h2]
    · simp only [h1, h2, if_false, Bool.false_eq_true, if_neg, ite_false]
      rcases fetchAttempts_cases (net (pyStr knob.thumbnail_url)) (thumbnailPath d knob)
          (fun k => k) fs { knob with local_thumbnail_path := some (thumbnailPath d knob) }
          (List.range' 1 d.retry_attempts) with h | ⟨b, n, h⟩
      · simp [h1, h2, h]
      · simp [h1, h2, h]

/-- The four control-flow outcomes of download_knob_with_retry: existence
skip, missing URL, retry-loop success, retry exhaustion. -/
theorem knob_fetch_cases (d : Downloader) (net : NetOracle) (fs : FileSys)
    (knob : KnobAsset) :
    (fsExists fs (knobFilePath d knob) = true ∧
      download_knob_with_retry d net fs knob =
        ⟨knobFilePath d knob,
          { knob with local_path := some (knobFilePath d knob), downloaded := true },
          fs, 0⟩) ∨
    (fsExists fs (knobFilePath d knob) = false ∧ pyFalsy knob.download_url = true ∧
      download_knob_with_retry d net fs knob =
        ⟨"", { knob with local_path := some (knobFilePath d knob) }, fs, 0⟩) ∨
    (fsExists fs (knobFilePath d knob) = false ∧
      ∃ b n, download_knob_with_retry d net fs knob =
        ⟨knobFilePath d knob,
          { knob with local_path := some (knobFilePath d knob), downloaded := true },
          fsWrite fs (knobFilePath d knob) b, n⟩) ∨
    (fsExists fs (knobFilePath d knob) = false ∧
      download_knob_with_retry d net fs knob =
        ⟨"", { knob with local_path := some (knobFilePath d knob) }, fs,
          d.retry_attempts⟩) := by
  unfold download_knob_with_retry
  by_cases h1 : fsExists fs (knobFilePath d knob)
  · exact Or.inl ⟨h1, by simp [h1]⟩
  · by_cases h2 : pyFalsy knob.download_url
    · exact Or.inr (Or.inl ⟨by simpa using h1, by simpa using h2, by simp [h1, h2]⟩)
    · rcases fetchAttempts_cases (net (pyStr knob.download_url)) (knobFilePath d knob)
          (fun k => { k with downloaded := true }) fs
          { knob with local_path := some (knobFilePath d knob) }
          (List.range' 1 d.retry_attempts) with h | ⟨b, n, h⟩
      · refine Or.inr (Or.inr (Or.inr ⟨by simpa using h1, ?_⟩))
        simp [h1, h2, h, List.length_range']
      · refine Or.inr (Or.inr (Or.inl ⟨by simpa using h1, b, n, ?_⟩))
        simp [h1, h2, h]

/-- With a falsy payload URL and no existing destination file, the payload
fetch returns the empty string at once: no attempts, no writes, the asset
only gaining the pre-registered local_path. -/
theorem knob_fetch_missing_url (d : Downloader) (net : NetOracle) (fs : FileSys)
    (knob : KnobAsset) (h1 : pyFalsy knob.download_url = true)
    (h2 : fsExists fs (knobFilePath d knob) = false) :
    download_knob_with_retry d net fs knob =
      ⟨"", { knob with local_path := some (knobFilePath d knob) }, fs, 0⟩ := by
  unfold download_knob_with_retry
  simp [h1, h2]

/-- A truthy return from the payload fetch means the returned asset is
marked downloaded. -/
theorem knob_fetch_downloaded_of_ret (d : Downloader) (net : NetOracle)
    (fs : FileSys) (knob : KnobAsset)
    (h : pyTruthyStr (download_knob_with_retry d net fs knob).ret = true) :
    (download_knob_with_retry d net fs knob).knob.downloaded = true := by
  rcases knob_fetch_cases d net fs knob with
    ⟨_, he⟩ | ⟨_, _, he⟩ | ⟨_, b, n, he⟩ | ⟨_, he⟩ <;>
    rw [he] at h ⊢ <;> simp_all [pyTruthyStr]

/-- The thumbnail phase of a complete task never touches the payload
fields of the asset, and only ever adds a file to the filesystem. -/
theorem thumbPhase_shape (d : Downloader) (net : NetOracle) (fs : FileSys)
    (knob : KnobAsset) :
    ((thumbPhase d net fs knob).1.id = knob.id ∧
     (thumbPhase d net fs knob).1.file = knob.file ∧
     (thumbPhase d net fs knob).1.local_path = knob.local_path ∧
     (thumbPhase d net fs knob).1.downloaded = knob.downloaded) ∧
    ((thumbPhase d net fs knob).2 = fs ∨
      ∃ b, (thumbPhase d net fs knob).2 = fsWrite fs (thumbnailPath d knob) b) := by
  unfold thumbPhase
  by_cases hb : (match knob.local_thumbnail_path with
    | none => true
    | some p => (p == "") || !(fsExists fs p)) = true
  · obtain ⟨hk, hfs⟩ := thumb_fetch_shape d net fs knob
    simp [hb, hk, hfs]
  · simp [hb]

/-- The completed-items assignment inside download_knob_complete targets a
declared field, so a complete task never raises; its asset and filesystem
effect is the thumbnail phase followed by the payload fetch. -/
theorem applyOp_complete (d : Downloader) (net : NetOracle) (st : KnobAsset × FileSys) :
    applyOp d st (DOp.complete net) =
      ((download_knob_with_retry d net (thumbPhase d net st.2 st.1).2
          (thumbPhase d net st.2 st.1).1).knob,
       (download_knob_with_retry d net (thumbPhase d net st.2 st.1).2
          (thumbPhase d net st.2 st.1).1).fs) := by
  unfold applyOp download_knob_complete
  by_cases hs : pyTruthyStr (download_knob_with_retry d net (thumbPhase d net st.2 st.1).2
      (thumbPhase d net st.2 st.1).1).ret
  · simp only [hs, if_true, pydanticAssign]
    rw [if_pos (by decide)]
  · simp [hs]

/-- Transport of the payload invariant along an operation that preserves
the payload fields and only grows the filesystem. -/
theorem payloadInv_of_parts {d : Downloader} {k k' : KnobAsset} {fs fs' : FileSys}
    (h : PayloadInv d k fs) (hid : k'.id = k.id) (hfile : k'.file = k.file)
    (hlp : k'.local_path = k.local_path) (hdl : k'.downloaded = k.downloaded)
    (hfs : ∀ p, fsExists fs p = true → fsExists fs' p = true) :
    PayloadInv d k' fs' := by
  intro hd
  rw [hdl] at hd
  obtain ⟨hp, he⟩ := h hd
  have hkp : knobFilePath d k' = knobFilePath d k := by
    unfold knobFilePath
    rw [hid, hfile]
  exact ⟨by rw [hlp, hkp]; exact hp, by rw [hkp]; exact hfs _ he⟩

/-- The thumbnail fetch preserves the payload invariant. -/
theorem payloadInv_thumb (d : Downloader) (net : NetOracle) {k : KnobAsset}
    {fs : FileSys} (h : PayloadInv d k fs) :
    PayloadInv d (download_thumbnail_with_retry d net fs k).knob
      (download_thumbnail_with_retry d net fs k).fs := by
  obtain ⟨hk, hfs⟩ := thumb_fetch_shape d net fs k
  refine payloadInv_of_parts h (by rw [hk]) (by rw [hk]) (by rw [hk]) (by rw [hk]) ?_
  intro p hp
  rcases hfs with h2 | ⟨b, h2⟩
  · rw [h2]; exact hp
  · rw [h2]; exact fsExists_write_mono _ _ hp

/-- The payload fetch preserves the payload invariant: it marks the asset
downloaded only when the destination file exists or has just been
written, and it re-points local_path at the computed destination. -/
theorem payloadInv_knob_fetch (d : Downloader) (net : NetOracle) {k : KnobAsset}
    {fs : FileSys} (h : PayloadInv d k fs) :
    PayloadInv d (download_knob_with_retry d net fs k).knob
      (download_knob_with_retry d net fs k).fs := by
  have hkp : ∀ lp dl, knobFilePath d { k with local_path := lp, downloaded := dl } =
      knobFilePath d k := by
    intro lp dl
    unfold knobFilePath
    rfl
  rcases knob_fetch_cases d net fs k with
    ⟨h1, he⟩ | ⟨h1, _, he⟩ | ⟨h1, b, n, he⟩ | ⟨h1, he⟩
  · rw [he]
    intro _
    refine ⟨by simp [hkp], ?_⟩
    simpa [hkp] using h1
  · rw [he]
    intro hd
    simp only at hd
    obtain ⟨_, hex⟩ := h hd
    rw [hex] at h1
    cases h1
  · rw [he]
    intro _
    refine ⟨by simp [hkp], ?_⟩
    have := fsExists_write_self fs (knobFilePath d k) b
    simpa [hkp] using this
  · rw [he]
    intro hd
    simp only at hd
    obtain ⟨_, hex⟩ := h hd
    rw [hex] at h1
    cases h1

/-- Every single downloader operation preserves the payload invariant. -/
theorem payloadInv_applyOp (d : Downloader) (op : DOp) {k : KnobAsset}
    {fs : FileSys} (h : PayloadInv d k fs) :
    PayloadInv d (applyOp d (k, fs) op).1 (applyOp d (k, fs) op).2 := by
  cases op with
  | thumb net =>
    simpa [applyOp] using payloadInv_thumb d net h
  | fetchKnob net =>
    simpa [applyOp] using payloadInv_knob_fetch d net h
  | complete net =>
    rw [applyOp_complete]
    have h1 : PayloadInv d (thumbPhase d net fs k).1 (thumbPhase d net fs k).2 := by
      obtain ⟨⟨hid, hfile, hlp, hdl⟩, hfs⟩ := thumbPhase_shape d net fs k
      refine payloadInv_of_parts h hid hfile hlp hdl ?_
      intro p hp
      rcases hfs with h2 | ⟨b, h2⟩
      · rw [h2]; exact hp
      · rw [h2]; exact fsExists_write_mono _ _ hp
    exact payloadInv_knob_fetch d net h1

/-- Every sequence of downloader operations preserves the payload
invariant. -/
theorem payloadInv_applyOps (d : Downloader) (ops : List DOp) :
    ∀ (k : KnobAsset) (fs : FileSys), PayloadInv d k fs →
      PayloadInv d (applyOps d (k, fs) ops).1 (applyOps d (k, fs) ops).2 := by
  induction ops with
  | nil => intro k fs h; exact h
  | cons op rest ih =>
    intro k fs h
    have h1 := payloadInv_applyOp d op h
    have h2 := ih (applyOp d (k, fs) op).1 (applyOp d (k, fs) op).2 h1
    simpa [applyOps, List.foldl_cons] using h2

/-- For a positive batch size the partition of line 167 is computed
without error. -/
theorem makeBatches_pos (knobs : List KnobAsset) {bs : Int} (h : 1 ≤ bs) :
    makeBatches knobs bs =
      Except.ok ((List.range' 0 ((knobs.length + bs.toNat - 1) / bs.toNat) bs.toNat).map
        (fun i => (knobs.drop i).take bs.toNat)) := by
  unfold makeBatches pyRange
  rw [if_neg (by omega), if_neg (by omega)]

/-- For a negative batch size the partition step silently produces no
batches at all: range(0, total, negative) is empty. -/
theorem makeBatches_neg (knobs : List KnobAsset) {bs : Int} (h : bs < 0) :
    makeBatches knobs bs = Except.ok [] := by
  unfold makeBatches pyRange
  rw [if_neg (by omega), if_pos h]
  rfl

/-- Entering the batch loop with any batch at all raises the pydantic
ValueError of line 177 at once: message is not a declared field of
ScrapeStatus. -/
theorem processBatches_cons (d : Downloader) (net : NetOracle)
    (ord : List KnobAsset → List KnobAsset) (mw : Int) (fs : FileSys)
    (st : RunState) (b : List KnobAsset) (rest : List (List KnobAsset)) :
    processBatches d net ord mw fs st (b :: rest) =
      Except.error (PyError.noField "ScrapeStatus" "message") := by
  rfl

/-- With a batch size of at least one, every call to
download_assets_in_batches raises the pydantic ValueError for the
undeclared message field: with at least one batch it raises at line 177
before any task is submitted, and with no batches it raises at the
finalization of line 206. It never returns a pair of counts. -/
theorem batch_run_always_raises (d : Downloader) (net : NetOracle)
    (ord : List KnobAsset → List KnobAsset) (fs : FileSys)
    (knobs : List KnobAsset) {bs : Int} (mw : Int) (h : 1 ≤ bs) :
    download_assets_in_batches d net ord fs knobs bs mw =
      Except.error (PyError.noField "ScrapeStatus" "message") := by
  unfold download_assets_in_batches
  rw [makeBatches_pos knobs h]
  cases hL : (List.range' 0 ((knobs.length + bs.toNat - 1) / bs.toNat) bs.toNat).map
      (fun i => (knobs.drop i).take bs.toNat) with
  | nil => rfl
  | cons b t => rfl

/-- C1: the claim says download_assets_in_batches returns a pair of counts
summing to N for any scheduling order. In fact for every input with a
positive batch size the function raises the pydantic ValueError for the
undeclared ScrapeStatus field message before any per-asset task is
submitted (line 177, or line 206 when there are no batches), so it never
returns counts at all. This theorem evaluates the code on all such
inputs. -/
theorem claim1_batch_run_never_returns (d : Downloader) (net : NetOracle)
    (ord : List KnobAsset → List KnobAsset) (fs : FileSys)
    (knobs : List KnobAsset) (bs mw : Int) (h : 1 ≤ bs) :
    download_assets_in_batches d net ord fs knobs bs mw =
      Except.error (PyError.noField "ScrapeStatus" "message") :=
  batch_run_always_raises d net ord fs knobs mw h

/-- Witness for C1 at one asset, batch size 1, one worker. -/
theorem claim1_witness :
    download_assets_in_batches dEx netData id [] [kEx] 1 1 =
      Except.error (PyError.noField "ScrapeStatus" "message") :=
  claim1_batch_run_never_returns dEx netData id [] [kEx] 1 1 (by decide)

/-- C2: when the payload fetch of a complete task returns a truthy result,
download_knob_complete returns True, the asset is marked downloaded, and
the task result is determined by the payload fetch alone, whatever the
thumbnail phase did. -/
theorem claim2_payload_success_is_task_success (d : Downloader) (net : NetOracle)
    (fs : FileSys) (st : RunState) (knob : KnobAsset)
    (h : pyTruthyStr (download_knob_with_retry d net (thumbPhase d net fs knob).2
        (thumbPhase d net fs knob).1).ret = true) :
    download_knob_complete d net fs st knob =
      Except.ok ⟨true,
        (download_knob_with_retry d net (thumbPhase d net fs knob).2
          (thumbPhase d net fs knob).1).knob,
        (download_knob_with_retry d net (thumbPhase d net fs knob).2
          (thumbPhase d net fs knob).1).fs,
        ⟨pySetAdd st.completed_ids knob.id, st.failed_ids,
          { st.status with
            completed_items := (pySetAdd st.completed_ids knob.id).length }⟩⟩ ∧
    (download_knob_with_retry d net (thumbPhase d net fs knob).2
      (thumbPhase d net fs knob).1).knob.downloaded = true := by
  constructor
  · unfold download_knob_complete
    simp only [h, if_true, pydanticAssign]
    rw [if_pos (by decide)]
  · exact knob_fetch_downloaded_of_ret _ _ _ _ h

/-- Witness for C2: the thumbnail URL is unreachable, the payload URL
succeeds; the task succeeds and the asset is marked downloaded. -/
theorem claim2_witness :
    download_knob_complete dEx netPayloadOnly [] {} kExT =
      Except.ok ⟨true,
        { kExT with
          local_path := some "knobs/1_a.knb"
          local_thumbnail_path := some "thumbs/1.png"
          downloaded := true },
        [("knobs/1_a.knb", "data")], ⟨[1], [], { completed_items := 1 }⟩⟩ ∧
    (download_knob_with_retry dEx netPayloadOnly
      (thumbPhase dEx netPayloadOnly [] kExT).2
      (thumbPhase dEx netPayloadOnly [] kExT).1).knob.downloaded = true :=
  claim2_payload_success_is_task_success dEx netPayloadOnly [] {} kExT (by rfl)

/-- C3: when the destination file already exists, each fetcher returns the
destination path at once with zero network attempts and an unchanged
filesystem, and the payload fetcher also marks the asset downloaded. -/
theorem claim3_idempotent_skip (d : Downloader) (net : NetOracle)
    (fs : FileSys) (knob : KnobAsset) :
    (fsExists fs (thumbnailPath d knob) = true →
      download_thumbnail_with_retry d net fs knob =
        ⟨thumbnailPath d knob,
          { knob with local_thumbnail_path := some (thumbnailPath d knob) }, fs, 0⟩) ∧
    (fsExists fs (knobFilePath d knob) = true →
      download_knob_with_retry d net fs knob =
        ⟨knobFilePath d knob,
          { knob with local_path := some (knobFilePath d knob), downloaded := true },
          fs, 0⟩) := by
  constructor
  · intro h
    unfold download_thumbnail_with_retry
    simp [h]
  · intro h
    unfold download_knob_with_retry
    simp [h]

/-- Witness for C3: both destination files of kEx already on disk. -/
theorem claim3_witness :
    download_thumbnail_with_retry dEx netNone fsBoth kEx =
      ⟨"thumbs/1.png", { kEx with local_thumbnail_path := some "thumbs/1.png" },
        fsBoth, 0⟩ ∧
    download_knob_with_retry dEx netNone fsBoth kEx =
      ⟨"knobs/1_a.knb",
        { kEx with local_path := some "knobs/1_a.knb", downloaded := true },
        fsBoth, 0⟩ :=
  ⟨(claim3_idempotent_skip dEx netNone fsBoth kEx).1 (by rfl),
   (claim3_idempotent_skip dEx netNone fsBoth kEx).2 (by rfl)⟩

/-- C4 (counterexample): with batch_size 0 the batch runner is not
rejected with a configuration error before partitioning; the partition
step itself raises the range ValueError. With batch_size -1 the run gets
past partitioning entirely (producing no batches) and fails only at the
status finalization, so no prior validation happened either. -/
theorem claim4_counterexample :
    download_assets_in_batches dEx netNone id [] [kEx] 0 4 =
      Except.error PyError.rangeZeroStep ∧
    (Except.error PyError.rangeZeroStep ≠
      (Except.error PyError.configError : Except PyError (Nat × Nat))) ∧
    download_assets_in_batches dEx netNone id [] [kEx] (-1) 4 =
      Except.error (PyError.noField "ScrapeStatus" "message") :=
  ⟨rfl, by simp, rfl⟩

/-- C4 (amended): download_assets_in_batches performs no validation of
batch_size or max_workers. batch_size 0 makes the partition step itself
raise the range ValueError; a negative batch_size silently yields an empty
batch list and the run proceeds to the finalization fault; max_workers is
never examined before partitioning. -/
theorem claim4_no_validation (d : Downloader) (net : NetOracle)
    (ord : List KnobAsset → List KnobAsset) (fs : FileSys)
    (knobs : List KnobAsset) (mw : Int) :
    download_assets_in_batches d net ord fs knobs 0 mw =
      Except.error PyError.rangeZeroStep ∧
    (∀ bs : Int, bs < 0 →
      download_assets_in_batches d net ord fs knobs bs mw =
        Except.error (PyError.noField "ScrapeStatus" "message")) := by
  constructor
  · rfl
  · intro bs hbs
    unfold download_assets_in_batches
    rw [makeBatches_neg knobs hbs]
    rfl

/-- Witness for C4's amended statement at batch sizes 0 and -2. -/
theorem claim4_witness :
    download_assets_in_batches dEx netNone id [] [kEx] 0 4 =
      Except.error PyError.rangeZeroStep ∧
    download_assets_in_batches dEx netNone id [] [kEx] (-2) 4 =
      Except.error (PyError.noField "ScrapeStatus" "message") :=
  ⟨(claim4_no_validation dEx netNone id [] [kEx] 4).1,
   (claim4_no_validation dEx netNone id [] [kEx] 4).2 (-2) (by decide)⟩

/-- C5 (counterexample): a payload fetch against a server answering 200
with an empty body marks the asset downloaded while the file at its
local_path exists but is empty, refuting the non-emptiness half of the
claimed invariant. -/
theorem claim5_counterexample :
    c5Run.1.downloaded = true ∧
    c5Run.1.local_path = some "knobs/1_a.knb" ∧
    fsLookup c5Run.2 "knobs/1_a.knb" = some "" ∧
    ¬(c5Run.1.downloaded = true →
      ∃ c, fsLookup c5Run.2 "knobs/1_a.knb" = some c ∧ c ≠ "") := by
  refine ⟨rfl, rfl, rfl, ?_⟩
  intro hcl
  rcases hcl rfl with ⟨c, hc, hne⟩
  have h0 : fsLookup c5Run.2 "knobs/1_a.knb" = some "" := rfl
  rw [h0] at hc
  exact hne (Option.some.inj hc).symm

/-- C5 (amended): starting from an asset not yet marked downloaded, after
any sequence of downloader operations, downloaded implies the file named
by local_path exists; non-emptiness of that file is not guaranteed. -/
theorem claim5_downloaded_implies_exists (d : Downloader) (ops : List DOp)
    (k0 : KnobAsset) (fs0 : FileSys) (h : k0.downloaded = false) :
    (applyOps d (k0, fs0) ops).1.downloaded = true →
    ∃ p, (applyOps d (k0, fs0) ops).1.local_path = some p ∧
      fsExists (applyOps d (k0, fs0) ops).2 p = true := by
  intro hd
  have h0 : PayloadInv d k0 fs0 := by
    intro hdd
    rw [h] at hdd
    cases hdd
  obtain ⟨hp, he⟩ := payloadInv_applyOps d ops k0 fs0 h0 hd
  exact ⟨_, hp, he⟩

/-- Witness for C5's amended statement: one successful payload fetch. -/
theorem claim5_witness :
    ∃ p, (applyOps dEx (kEx, []) [DOp.fetchKnob netData]).1.local_path = some p ∧
      fsExists (applyOps dEx (kEx, []) [DOp.fetchKnob netData]).2 p = true :=
  claim5_downloaded_implies_exists dEx [DOp.fetchKnob netData] kEx [] rfl (by rfl)

/-- C6: with no existing destination file, a truthy URL and a network on
which every attempt fails, the payload fetch makes exactly retry_attempts
attempts, returns the empty string rather than raising, and leaves the
filesystem exactly as it was: no partial file at the destination. -/
theorem claim6_retry_exhaustion (d : Downloader) (net : NetOracle)
    (fs : FileSys) (knob : KnobAsset)
    (h1 : fsExists fs (knobFilePath d knob) = false)
    (h2 : pyFalsy knob.download_url = false)
    (h3 : ∀ i, net (pyStr knob.download_url) i = none) :
    download_knob_with_retry d net fs knob =
      ⟨"", { knob with local_path := some (knobFilePath d knob) }, fs,
        d.retry_attempts⟩ := by
  have hall := fetchAttempts_all_fail (net (pyStr knob.download_url))
    (knobFilePath d knob) (fun k => { k with downloaded := true }) fs
    { knob with local_path := some (knobFilePath d knob) }
    (List.range' 1 d.retry_attempts) (fun i _ => h3 i)
  unfold download_knob_with_retry
  simp [h1, h2, hall, List.length_range']

/-- Witness for C6: all three attempts against an all-failing network. -/
theorem claim6_witness :
    download_knob_with_retry dEx netNone [] kEx =
      ⟨"", { kEx with local_path := some "knobs/1_a.knb" }, [], 3⟩ :=
  claim6_retry_exhaustion dEx netNone [] kEx rfl rfl (fun _ => rfl)

/-- C7: with a falsy payload URL and no existing destination file, the
payload fetch fails immediately: zero attempts, empty-string result, and
an asset whose downloaded flag is unchanged, hence still false when it was
false. -/
theorem claim7_missing_url_fails_fast (d : Downloader) (net : NetOracle)
    (fs : FileSys) (knob : KnobAsset)
    (h1 : pyFalsy knob.download_url = true)
    (h2 : fsExists fs (knobFilePath d knob) = false) :
    download_knob_with_retry d net fs knob =
      ⟨"", { knob with local_path := some (knobFilePath d knob) }, fs, 0⟩ ∧
    (knob.downloaded = false →
      (download_knob_with_retry d net fs knob).knob.downloaded = false) := by
  have he := knob_fetch_missing_url d net fs knob h1 h2
  refine ⟨he, fun hdf => ?_⟩
  rw [he]
  simpa using hdf

/-- Witness for C7: an asset with no URLs at all. -/
theorem claim7_witness :
    download_knob_with_retry dEx netNone [] kNoUrl =
      ⟨"", { kNoUrl with local_path := some "knobs/2_b.knb" }, [], 0⟩ ∧
    (download_knob_with_retry dEx netNone [] kNoUrl).knob.downloaded = false :=
  ⟨(claim7_missing_url_fails_fast dEx netNone [] kNoUrl rfl rfl).1,
   (claim7_missing_url_fails_fast dEx netNone [] kNoUrl rfl rfl).2 rfl⟩

/-- C8 (code bug): the partition of line 167 for five assets with batch
size two is exactly three consecutive groups of sizes 2, 2, 1 whose
concatenation is the input in order; but every run on this input raises
the pydantic ValueError of line 177 before submitting any task of the
first batch, so no batch's tasks ever start, let alone in sequence. -/
theorem claim8_partition_formed_but_run_raises :
    makeBatches knobs5 2 =
      Except.ok [[mkA 1, mkA 2], [mkA 3, mkA 4], [mkA 5]] ∧
    ([[mkA 1, mkA 2], [mkA 3, mkA 4], [mkA 5]] : List (List KnobAsset)).map
      List.length = [2, 2, 1] ∧
    ([[mkA 1, mkA 2], [mkA 3, mkA 4], [mkA 5]] : List (List KnobAsset)).flatten =
      knobs5 ∧
    ∀ (net : NetOracle) (ord : List KnobAsset → List KnobAsset),
      download_assets_in_batches dEx net ord [] knobs5 2 2 =
        Except.error (PyError.noField "ScrapeStatus" "message") :=
  ⟨rfl, rfl, rfl, fun _ _ => rfl⟩

/-- C9 (code bug): after all (zero) batches of the empty run complete, the
finalization of lines 204-206 sets in_progress and success but then raises
the pydantic ValueError on the message assignment of line 206, so the
status is never finalized with a message and no counts are returned. -/
theorem claim9_finalization_raises :
    ∀ (net : NetOracle) (ord : List KnobAsset → List KnobAsset),
      download_assets_in_batches dEx net ord [] ([] : List KnobAsset) 2 4 =
        Except.error (PyError.noField "ScrapeStatus" "message") :=
  fun _ _ => rfl

/-- C10: each fetcher sets the corresponding local-path field of the asset
to the computed destination on every call, before the existence and URL
checks can bail out; consequently a payload fetch that fails on a missing
URL leaves the asset with a local_path naming a file that does not
exist. -/
theorem claim10_fetch_presets_local_paths (d : Downloader) (net : NetOracle)
    (fs : FileSys) (knob : KnobAsset) :
    (download_thumbnail_with_retry d net fs knob).knob.local_thumbnail_path =
      some (thumbnailPath d knob) ∧
    (download_knob_with_retry d net fs knob).knob.local_path =
      some (knobFilePath d knob) ∧
    (pyFalsy knob.download_url = true → fsExists fs (knobFilePath d knob) = false →
      pyTruthyStr (download_knob_with_retry d net fs knob).ret = false ∧
      fsExists (download_knob_with_retry d net fs knob).fs
        (knobFilePath d knob) = false) := by
  refine ⟨?_, ?_, ?_⟩
  · rw [(thumb_fetch_shape d net fs knob).1]
  · rcases knob_fetch_cases d net fs knob with
      ⟨_, he⟩ | ⟨_, _, he⟩ | ⟨_, b, n, he⟩ | ⟨_, he⟩ <;> rw [he]
  · intro h1 h2
    rw [knob_fetch_missing_url d net fs knob h1 h2]
    exact ⟨rfl, h2⟩

/-- Witness for C10: a URL-less asset; both path fields are set and the
failed payload fetch leaves local_path naming a non-existent file. -/
theorem claim10_witness :
    (download_thumbnail_with_retry dEx netNone [] kNoUrl).knob.local_thumbnail_path =
      some "thumbs/2.png" ∧
    (download_knob_with_retry dEx netNone [] kNoUrl).knob.local_path =
      some "knobs/2_b.knb" ∧
    (pyTruthyStr (download_knob_with_retry dEx netNone [] kNoUrl).ret = false ∧
      fsExists (download_knob_with_retry dEx netNone [] kNoUrl).fs
        "knobs/2_b.knb" = false) :=
  ⟨(claim10_fetch_presets_local_paths dEx netNone [] kNoUrl).1,
   (claim10_fetch_presets_local_paths dEx netNone [] kNoUrl).2.1,
   (claim10_fetch_presets_local_paths dEx netNone [] kNoUrl).2.2 rfl rfl⟩
